import Mathlib

/-!
Verification development for the procedural destruction engine of the
Blackholerun repository.

The definitions below are shallow embeddings of:
  * src/backup003/ship_destruction_cinematic.py  (ShipDestructionCinematic,
    CinematicDebris, Spark, SmokeCloud, and the draw routine),
  * src/asteroid_destruction_module.py  (AsteroidDebrisPiece,
    ExplodingDebrisPiece, and the per-fragment speed computation of
    _create_debris_base),
  * src/backup003/ship_destruction_module.py  (the per-fragment speed
    computation of create_ship_debris),
  * src/particle_module.py  (SuckingParticle).

Python floats are embedded as exact rationals (for the frame-stepped
sequencer, whose arithmetic is rational) or as real numbers (for the code
paths that use math.hypot / math.atan2).  Python int() truncation toward
zero is modelled explicitly.  Visual-only subsystems that never feed back
into any quantity the theorems mention (electrical arcs, mini-explosions,
twinkling stars, sound playback, colors, the actual pixel contents of the
fragment surfaces) are not tracked; comments at each definition record
what is omitted.
-/

namespace BHR

/-! ### Configuration constants of src/backup003/ship_destruction_cinematic.py -/

def SHAKE_1_DURATION : ℕ := 15

def DELAY_1_DURATION : ℕ := 60

def SHAKE_2_DURATION : ℕ := 20

def DELAY_2_DURATION : ℕ := 60

def FLASH_DURATION : ℕ := 8

def FRACTURE_DURATION : ℕ := 15

def EXPAND_DURATION : ℕ := 80

/-- FRACTURE_SPEED = 0.02 in the source. -/
def FRACTURE_SPEED : ℚ := 1 / 50

def SPARK_COUNT : ℕ := 50

def SPARK_LIFETIME : ℤ := 20

def SMOKE_CLOUD_COUNT : ℕ := 30

def SMOKE_CLOUD_LIFETIME : ℕ := 120

/-- Coasting drag 0.995 used by CinematicDebris.update. -/
def COASTING_DRAG : ℚ := 199 / 200

/-! ### Helper classes of the cinematic module -/

/-- One piece of the ship for the cinematic explosion (class CinematicDebris).
The pixel contents of the piece surface are not tracked, only the surface
size (used by the off-screen test in the COASTING state).  The field
rotationAngle is the tumbling angle; it never feeds back into position. -/
structure CinDebris where
  posX : ℚ
  posY : ℚ
  velX : ℚ
  velY : ℚ
  rotationAngle : ℚ
  rotationSpeed : ℚ
  imgW : ℕ
  imgH : ℕ
deriving DecidableEq, Repr

/-- CinematicDebris.update(coasting_drag): move by velocity, tumble, then
multiply the velocity by the drag factor. -/
def cinDebrisUpdate (coastingDrag : ℚ) (d : CinDebris) : CinDebris :=
  { d with
    posX := d.posX + d.velX
    posY := d.posY + d.velY
    rotationAngle := d.rotationAngle + d.rotationSpeed
    velX := d.velX * coastingDrag
    velY := d.velY * coastingDrag }

/-- The FRACTURING state nudges each piece by velocity * FRACTURE_SPEED
directly (it does not call CinematicDebris.update, so no tumbling and no
drag there). -/
def fractureNudge (d : CinDebris) : CinDebris :=
  { d with
    posX := d.posX + d.velX * FRACTURE_SPEED
    posY := d.posY + d.velY * FRACTURE_SPEED }

/-- Class Spark.  Position and velocity are random and draw-only; the
fields that matter to the sequencer model are lifetime and alpha. -/
structure Spark where
  lifetime : ℤ
  alpha : ℚ
deriving DecidableEq, Repr

/-- Spark.update: decrement lifetime, recompute alpha from it. -/
def sparkUpdate (s : Spark) : Spark :=
  let lt := s.lifetime - 1
  { lifetime := lt, alpha := max 0 (min 255 (255 * ((lt : ℚ) / (SPARK_LIFETIME : ℚ)))) }

def newSpark : Spark := { lifetime := SPARK_LIFETIME, alpha := 255 }

/-- Class SmokeCloud.  Position (randomly jittered) and radius are
draw-only and not tracked; current_lifetime and alpha drive removal. -/
structure SmokeCloud where
  currentLifetime : ℕ
  alpha : ℚ
deriving DecidableEq, Repr

/-- SmokeCloud.update: age the cloud; alpha fades linearly with progress
and is forced to 0 past the fixed lifetime of 120 frames. -/
def smokeCloudUpdate (c : SmokeCloud) : SmokeCloud :=
  let t := c.currentLifetime + 1
  if SMOKE_CLOUD_LIFETIME < t then { currentLifetime := t, alpha := 0 }
  else
    { currentLifetime := t
      alpha := max 0 (min 255 (255 * (1 - (t : ℚ) / (SMOKE_CLOUD_LIFETIME : ℚ)))) }

def newSmokeCloud : SmokeCloud := { currentLifetime := 0, alpha := 255 }

/-- Python int() truncation toward zero, on rationals (pygame.Rect
coordinates are truncated this way when floats are assigned). -/
def pyTrunc (q : ℚ) : ℤ :=
  if 0 ≤ q then ⌊q⌋ else -⌊-q⌋

/-- The COASTING off-screen test:
screen_rect = Rect(0, 0, screen_width, screen_height) and
screen_rect.colliderect(piece.image.get_rect(center=piece.pos)).
Assigning the float center truncates toward zero, and the rect left/top are
center minus half the size rounded down (pygame integer arithmetic). -/
def collidesScreen (screenW screenH : ℕ) (d : CinDebris) : Bool :=
  let left : ℤ := pyTrunc d.posX - (d.imgW / 2 : ℕ)
  let top : ℤ := pyTrunc d.posY - (d.imgH / 2 : ℕ)
  decide (0 < left + d.imgW) && decide (left < screenW) &&
    decide (0 < top + d.imgH) && decide (top < screenH)

/-! ### The cinematic state machine -/

/-- The values taken by ShipDestructionCinematic.state (strings in the
source). -/
inductive CinState where
  | SHAKE_1
  | DELAY_1
  | SHAKE_2
  | DELAY_2
  | INITIAL_FLASH
  | FRACTURING
  | EXPANDING_CORE
  | COASTING
deriving DecidableEq, Repr

/-- Constructor parameters of ShipDestructionCinematic plus the per-run
random outcomes the state machine consumes: the drift velocity drawn in
the constructor and the debris list produced by the single
_create_cinematic_debris call (which is RNG-dependent). -/
structure SeqCfg where
  shake1Duration : ℕ
  delay1Duration : ℕ
  shake2Duration : ℕ
  delay2Duration : ℕ
  flashDuration : ℕ
  fractureDuration : ℕ
  expandDuration : ℕ
  screenW : ℕ
  screenH : ℕ
  driftX : ℚ
  driftY : ℚ
  fragments : List CinDebris
deriving DecidableEq, Repr

/-- A configuration with the module-level duration constants of the source
and the screen size of the standalone test harness. -/
def defaultCfg (fragments : List CinDebris) : SeqCfg :=
  { shake1Duration := SHAKE_1_DURATION
    delay1Duration := DELAY_1_DURATION
    shake2Duration := SHAKE_2_DURATION
    delay2Duration := DELAY_2_DURATION
    flashDuration := FLASH_DURATION
    fractureDuration := FRACTURE_DURATION
    expandDuration := EXPAND_DURATION
    screenW := 1000
    screenH := 800
    driftX := 0
    driftY := 0
    fragments := fragments }

/-- Mutable state of ShipDestructionCinematic.  genCalls is a ghost
counter recording how many times _create_cinematic_debris has been
invoked; it instruments the single call site and has no influence on any
other field.  Mini-explosions, electrical arcs, twinkling stars and the
explosion-core envelope are visual-only and not tracked (the flag
coreSpawned records that self.explosion_core was assigned). -/
structure SeqState where
  state : CinState
  stateTimer : ℕ
  posX : ℚ
  posY : ℚ
  isFinished : Bool
  debris : Option (List CinDebris)
  coreSpawned : Bool
  sparks : List Spark
  smokeClouds : List SmokeCloud
  genCalls : ℕ
deriving DecidableEq, Repr

/-- State directly after the constructor runs. -/
def seqInit (posX posY : ℚ) : SeqState :=
  { state := .SHAKE_1
    stateTimer := 0
    posX := posX
    posY := posY
    isFinished := false
    debris := none
    coreSpawned := false
    sparks := []
    smokeClouds := []
    genCalls := 0 }

/-- ShipDestructionCinematic.update.  Transcribed from the source:
an early return when finished; the timer increments; smoke clouds are
updated and pruned (alpha <= 0) before the state machine runs
(mini-explosions, arcs and stars are likewise updated there, but they
never influence the state machine, the debris or completion and are not
tracked here; sound playback and debug prints are also dropped).  The
state machine then behaves per state; debris is None until the
INITIAL_FLASH to FRACTURING transition; the COASTING state sets
is_finished once every updated piece fails the screen-collision test. -/
def seqUpdate (cfg : SeqCfg) (s : SeqState) : SeqState :=
  if s.isFinished then s
  else
    let t := s.stateTimer + 1
    let smoke := (s.smokeClouds.map smokeCloudUpdate).filter fun c => 0 < c.alpha
    match s.state with
    | .SHAKE_1 =>
        let px := s.posX + cfg.driftX
        let py := s.posY + cfg.driftY
        if cfg.shake1Duration ≤ t then
          { s with smokeClouds := smoke, posX := px, posY := py,
                   state := .DELAY_1, stateTimer := 0 }
        else
          { s with smokeClouds := smoke, posX := px, posY := py, stateTimer := t }
    | .DELAY_1 =>
        let px := s.posX + cfg.driftX
        let py := s.posY + cfg.driftY
        if cfg.delay1Duration ≤ t then
          { s with smokeClouds := smoke, posX := px, posY := py,
                   state := .SHAKE_2, stateTimer := 0 }
        else
          { s with smokeClouds := smoke, posX := px, posY := py, stateTimer := t }
    | .SHAKE_2 =>
        let px := s.posX + cfg.driftX
        let py := s.posY + cfg.driftY
        if cfg.shake2Duration ≤ t then
          { s with smokeClouds := smoke, posX := px, posY := py,
                   state := .DELAY_2, stateTimer := 0 }
        else
          { s with smokeClouds := smoke, posX := px, posY := py, stateTimer := t }
    | .DELAY_2 =>
        let px := s.posX + cfg.driftX
        let py := s.posY + cfg.driftY
        if cfg.delay2Duration ≤ t then
          { s with smokeClouds := smoke, posX := px, posY := py,
                   state := .INITIAL_FLASH, stateTimer := 0 }
        else
          { s with smokeClouds := smoke, posX := px, posY := py, stateTimer := t }
    | .INITIAL_FLASH =>
        if cfg.flashDuration ≤ t then
          { s with smokeClouds := smoke, state := .FRACTURING, stateTimer := 0,
                   debris := some cfg.fragments, coreSpawned := true,
                   genCalls := s.genCalls + 1 }
        else
          { s with smokeClouds := smoke, stateTimer := t }
    | .FRACTURING =>
        let ds := (s.debris.getD []).map fractureNudge
        if cfg.fractureDuration ≤ t then
          { s with smokeClouds := smoke ++ List.replicate SMOKE_CLOUD_COUNT newSmokeCloud,
                   debris := some ds, state := .EXPANDING_CORE, stateTimer := 0,
                   sparks := s.sparks ++ List.replicate SPARK_COUNT newSpark }
        else
          { s with smokeClouds := smoke, debris := some ds, stateTimer := t }
    | .EXPANDING_CORE =>
        let sparks := s.sparks.map sparkUpdate
        let ds := (s.debris.getD []).map (cinDebrisUpdate 1)
        if cfg.expandDuration ≤ t then
          { s with smokeClouds := smoke, sparks := sparks, debris := some ds,
                   state := .COASTING, stateTimer := 0 }
        else
          { s with smokeClouds := smoke, sparks := sparks, debris := some ds,
                   stateTimer := t }
    | .COASTING =>
        let ds := (s.debris.getD []).map (cinDebrisUpdate COASTING_DRAG)
        let allOff := ds.all fun d => !collidesScreen cfg.screenW cfg.screenH d
        let sparks := s.sparks.map sparkUpdate
        { s with smokeClouds := smoke, debris := some ds, sparks := sparks,
                 stateTimer := t, isFinished := allOff }

/-- What ShipDestructionCinematic.draw renders on top of the background
and the twinkling stars. -/
inductive DrawOutput where
  | nothingDrawn
  | intactShip
  | flashOverlay (alpha : ℚ)
  | fractureDebris
  | explosionScene
  | backgroundOnly
deriving DecidableEq, Repr

/-- ShipDestructionCinematic.draw, transcribed branch for branch: an early
return when finished; then the if/elif chain on self.state.  The first
branch matches the five pre-fracture states INCLUDING INITIAL_FLASH, so
the flash-overlay elif below it is kept here exactly as in the source,
where alpha = 255 * (1 - state_timer / FLASH_DURATION) clamped to
[0, 255]. -/
def cinematicDraw (s : SeqState) : DrawOutput :=
  if s.isFinished then .nothingDrawn
  else if s.state ∈ [CinState.SHAKE_1, .DELAY_1, .SHAKE_2, .DELAY_2, .INITIAL_FLASH] then
    .intactShip
  else if s.state = .INITIAL_FLASH then
    .flashOverlay (max 0 (min 255 (255 * (1 - (s.stateTimer : ℚ) / (FLASH_DURATION : ℚ)))))
  else if s.state = .FRACTURING then .fractureDebris
  else if s.state ∈ [CinState.EXPANDING_CORE, .COASTING] then .explosionScene
  else .backgroundOnly

/-! ### src/asteroid_destruction_module.py and src/particle_module.py

These code paths use math.hypot, so they are embedded over the real
numbers; the branch conditions on real quantities are resolved
classically. -/

open scoped Classical in
/-- Python int() truncation toward zero, on reals. -/
noncomputable def pyTruncR (x : ℝ) : ℤ :=
  if 0 ≤ x then ⌊x⌋ else -⌊-x⌋

/-- Class AsteroidDebrisPiece: a shattered piece that floats, then gets
sucked toward the screen center.  The image surface, tint color and the
game back-reference are not tracked; the attractor target is the screen
center (original_screen_width // 2, original_screen_height // 2), so the
screen size is passed to the update function.  suckInTimer is set in the
constructor to lifetime // 2. -/
structure AstPiece where
  x : ℝ
  y : ℝ
  velX : ℝ
  velY : ℝ
  rotationSpeed : ℝ
  rotationAngle : ℝ
  lifetime : ℝ
  alpha : ℤ
  suckedIn : Bool
  suckInTimer : ℝ
  swirlStrength : ℝ

open scoped Classical in
/-- AsteroidDebrisPiece.update(dt_factor).  Not sucked in: ballistic
motion, tumbling, lifetime decrement, and the one-way transition to the
sucked-in phase once lifetime <= suck_in_timer.  Sucked in: swirling
attraction toward the screen center (attraction_speed 4, tangential speed
4 * 1.9 * swirl_strength), alpha fade once within distance 100, and the
lifetime is zeroed within distance 50 * 1.2.  Finally alpha is zeroed
whenever lifetime <= 0. -/
noncomputable def astUpdate (screenW screenH : ℕ) (dt : ℝ) (p : AstPiece) : AstPiece :=
  let p1 :=
    if p.suckedIn then
      let dx := ((screenW / 2 : ℕ) : ℝ) - p.x
      let dy := ((screenH / 2 : ℕ) : ℝ) - p.y
      let distance := Real.sqrt (dx ^ 2 + dy ^ 2)
      let p2 :=
        if 0 < distance then
          let attractionSpeed : ℝ := 4
          let tangentialSpeed := attractionSpeed * 1.9 * p.swirlStrength
          let nx := dx / distance
          let ny := dy / distance
          let tangentialVx := -ny * tangentialSpeed
          let tangentialVy := nx * tangentialSpeed
          { p with x := p.x + (nx * attractionSpeed + tangentialVx),
                   y := p.y + (ny * attractionSpeed + tangentialVy) }
        else p
      let p3 :=
        if distance < 100 then
          { p2 with alpha := max 0 (pyTruncR (255 * (distance / 100))) }
        else p2
      if distance < 50 * 1.2 then { p3 with lifetime := 0 } else p3
    else
      let lt := p.lifetime - 1 * dt
      { p with x := p.x + p.velX * dt,
               y := p.y + p.velY * dt,
               rotationAngle := p.rotationAngle + p.rotationSpeed * dt,
               lifetime := lt,
               suckedIn := decide (lt ≤ p.suckInTimer) }
  if p1.lifetime ≤ 0 then { p1 with alpha := 0 } else p1

/-- MAX_DEBRIS_LIFETIME_EXPLODE, stored as self.max_lifetime by every
ExplodingDebrisPiece. -/
def MAX_DEBRIS_LIFETIME_EXPLODE : ℝ := 120

/-- Class ExplodingDebrisPiece: a shattered piece that flies outward and
fades over its lifetime.  Image surface and tint are not tracked. -/
structure ExplPiece where
  x : ℝ
  y : ℝ
  velX : ℝ
  velY : ℝ
  rotationSpeed : ℝ
  rotationAngle : ℝ
  lifetime : ℝ
  alpha : ℤ

open scoped Classical in
/-- ExplodingDebrisPiece.update(dt_factor): ballistic motion, tumbling,
lifetime decrement, then alpha = 0 when dead, otherwise
alpha = int(255 * lifetime / max_lifetime). -/
noncomputable def explUpdate (dt : ℝ) (q : ExplPiece) : ExplPiece :=
  let lt := q.lifetime - 1 * dt
  let q1 :=
    { q with x := q.x + q.velX * dt,
             y := q.y + q.velY * dt,
             rotationAngle := q.rotationAngle + q.rotationSpeed * dt,
             lifetime := lt }
  if lt ≤ 0 then { q1 with alpha := 0 }
  else { q1 with alpha := pyTruncR (255 * (lt / MAX_DEBRIS_LIFETIME_EXPLODE)) }

open scoped Classical in
/-- The per-tick displacement computed by the sucked-in branch of
AsteroidDebrisPiece.update (src/asteroid_destruction_module.py lines
57 to 75), as a function of the screen size, the position and the swirl
strength.  Returns the zero vector when the distance is zero. -/
noncomputable def astSuckDisplacement (screenW screenH : ℕ) (x y swirl : ℝ) : ℝ × ℝ :=
  let dx := ((screenW / 2 : ℕ) : ℝ) - x
  let dy := ((screenH / 2 : ℕ) : ℝ) - y
  let distance := Real.sqrt (dx ^ 2 + dy ^ 2)
  if 0 < distance then
    let attractionSpeed : ℝ := 4
    let tangentialSpeed := attractionSpeed * 1.9 * swirl
    let nx := dx / distance
    let ny := dy / distance
    (nx * attractionSpeed + -ny * tangentialSpeed,
     ny * attractionSpeed + nx * tangentialSpeed)
  else (0, 0)

open scoped Classical in
/-- The per-tick displacement computed by the sucked-in branch of
SuckingParticle.update (src/particle_module.py lines 30 to 42), as a
function of the screen size, the position and the swirl strength. -/
noncomputable def particleSuckDisplacement (screenW screenH : ℕ) (x y swirl : ℝ) : ℝ × ℝ :=
  let dx := ((screenW / 2 : ℕ) : ℝ) - x
  let dy := ((screenH / 2 : ℕ) : ℝ) - y
  let distance := Real.sqrt (dx ^ 2 + dy ^ 2)
  if 0 < distance then
    let attractionSpeed : ℝ := 4
    let tangentialSpeed := attractionSpeed * 1.9 * swirl
    let nx := dx / distance
    let ny := dy / distance
    (nx * attractionSpeed + -ny * tangentialSpeed,
     ny * attractionSpeed + nx * tangentialSpeed)
  else (0, 0)

/-- Class SuckingParticle.  The sprite image and rect are draw-only; the
suck-in timer is the constant 30 of the constructor. -/
structure SuckParticle where
  x : ℝ
  y : ℝ
  vx : ℝ
  vy : ℝ
  lifespan : ℤ
  suckedIn : Bool
  swirlStrength : ℝ

open scoped Classical in
/-- SuckingParticle.update: ballistic motion and lifespan decrement until
the one-way switch to sucked-in (lifespan <= 30); afterwards the same
swirling attraction toward the screen center as the debris piece. -/
noncomputable def suckingParticleUpdate (screenW screenH : ℕ) (sp : SuckParticle) : SuckParticle :=
  if sp.suckedIn then
    let dx := ((screenW / 2 : ℕ) : ℝ) - sp.x
    let dy := ((screenH / 2 : ℕ) : ℝ) - sp.y
    let distance := Real.sqrt (dx ^ 2 + dy ^ 2)
    if 0 < distance then
      let attractionSpeed : ℝ := 4
      let tangentialSpeed := attractionSpeed * 1.9 * sp.swirlStrength
      let nx := dx / distance
      let ny := dy / distance
      let tangentialVx := -ny * tangentialSpeed
      let tangentialVy := nx * tangentialSpeed
      { sp with x := sp.x + (nx * attractionSpeed + tangentialVx),
                y := sp.y + (ny * attractionSpeed + tangentialVy) }
    else sp
  else
    { sp with x := sp.x + sp.vx, y := sp.y + sp.vy,
              lifespan := sp.lifespan - 1,
              suckedIn := decide (sp.lifespan - 1 ≤ 30) }

/-! ### Per-fragment initial speed computations

Each debris-creation routine draws u uniformly from its speed range and
computes the initial speed magnitude from u and the fragment geometry:
the bbox center (px, py) of the triangle on the w x h source image.
These functions transcribe exactly that computation. -/

/-- create_ship_debris (src/backup003/ship_destruction_module.py lines
129 to 136): dist_from_center = hypot(px - centerx, py - centery),
speed = u * (0.5 + dist_from_center / max_radius), with
centerx = w // 2, centery = h // 2 and max_radius = max(w, h) / 2. -/
noncomputable def shipDebrisSpeed (u px py : ℝ) (w h : ℕ) : ℝ :=
  u * (0.5 +
    Real.sqrt ((px - ((w / 2 : ℕ) : ℝ)) ^ 2 + (py - ((h / 2 : ℕ) : ℝ)) ^ 2) /
      (((max w h : ℕ) : ℝ) / 2))

/-- The base debris routine of the asteroid module
(src/asteroid_destruction_module.py lines 246 to 253) computes
dist_from_center = hypot(px - img_rect.centery, py - img_rect.centerx):
the x coordinate is measured against centery and the y coordinate against
centerx. -/
noncomputable def asteroidDebrisBaseSpeed (u px py : ℝ) (w h : ℕ) : ℝ :=
  u * (0.5 +
    Real.sqrt ((px - ((h / 2 : ℕ) : ℝ)) ^ 2 + (py - ((w / 2 : ℕ) : ℝ)) ^ 2) /
      (((max w h : ℕ) : ℝ) / 2))

/-- The cinematic debris routine
(src/backup003/ship_destruction_cinematic.py lines 610 to 615) sets
debris_speed = random.uniform(DEBRIS_MIN_SPEED, DEBRIS_MAX_SPEED) with no
modifier: the speed is the uniform draw itself, independent of the
fragment offset. -/
noncomputable def cinematicDebrisSpeed (u _px _py : ℝ) (_w _h : ℕ) : ℝ := u

/-- Modelled from the spec: the claimed speed modifier
0.5 + |fragment.offset| / max_radius, where fragment.offset is the bbox
center offset from the image center and max_radius = max(w, h) / 2.
Stated with the integer rect center (w // 2, h // 2) that every creation
routine uses.  This definition follows the words of the specification and
exists to be compared with the three transcriptions above. -/
noncomputable def specSpeedModifier (px py : ℝ) (w h : ℕ) : ℝ :=
  0.5 +
    Real.sqrt ((px - ((w / 2 : ℕ) : ℝ)) ^ 2 + (py - ((h / 2 : ℕ) : ℝ)) ^ 2) /
      (((max w h : ℕ) : ℝ) / 2)

/-! ### Concrete configurations and invariants used by the theorems -/

/-- A configuration with every timed state duration set to one frame, the
standalone screen size, and a fragmentation outcome with no pieces. -/
def cfgUnit : SeqCfg :=
  { shake1Duration := 1, delay1Duration := 1, shake2Duration := 1, delay2Duration := 1,
    flashDuration := 1, fractureDuration := 1, expandDuration := 1,
    screenW := 1000, screenH := 800, driftX := 0, driftY := 0, fragments := [] }

/-- A reachable configuration on which COASTING never ends: the module
duration constants, a 4000 x 4000 screen, zero drift, and a fragmentation
outcome of one 10 x 10 piece at (1700, 2000) with velocity (3, 0) - the
speed 3 is the lower end of the uniform range [3, 5] and the direction is
the outward angle of a piece to the right of the image center. -/
def cfgC1 : SeqCfg :=
  { shake1Duration := SHAKE_1_DURATION
    delay1Duration := DELAY_1_DURATION
    shake2Duration := SHAKE_2_DURATION
    delay2Duration := DELAY_2_DURATION
    flashDuration := FLASH_DURATION
    fractureDuration := FRACTURE_DURATION
    expandDuration := EXPAND_DURATION
    screenW := 4000
    screenH := 4000
    driftX := 0
    driftY := 0
    fragments := [{ posX := 1700, posY := 2000, velX := 3, velY := 0,
                    rotationAngle := 0, rotationSpeed := 0, imgW := 10, imgH := 10 }] }

/-- The single debris piece of cfgC1, as a function of its evolving
horizontal position, horizontal velocity and tumbling angle. -/
def pieceC1 (x vx rot : ℚ) : CinDebris :=
  { posX := x, posY := 2000, velX := vx, velY := 0,
    rotationAngle := rot, rotationSpeed := 0, imgW := 10, imgH := 10 }

/-- Inductive invariant of the cfgC1 run: the sequencer is never finished.
In the pre-fracture states there is no debris yet; afterwards the single
piece moves right with the bound x + 200 * velX <= 2540.9 < screen width,
so its drag-limited trajectory never leaves the 4000 x 4000 screen. -/
def c1Inv (s : SeqState) : Prop :=
  s.isFinished = false ∧
  ((s.debris = none ∧
      (s.state = .SHAKE_1 ∨ s.state = .DELAY_1 ∨ s.state = .SHAKE_2 ∨
        s.state = .DELAY_2 ∨ s.state = .INITIAL_FLASH)) ∨
   (s.state = .FRACTURING ∧ s.stateTimer ≤ 14 ∧
      ∃ x rot, s.debris = some [pieceC1 x 3 rot] ∧ 1700 ≤ x ∧
        x + (3/50) * (15 - (s.stateTimer : ℚ)) ≤ 17009/10) ∨
   (s.state = .EXPANDING_CORE ∧ s.stateTimer ≤ 79 ∧
      ∃ x rot, s.debris = some [pieceC1 x 3 rot] ∧ 1700 ≤ x ∧
        x + 3 * (80 - (s.stateTimer : ℚ)) + 600 ≤ 25409/10) ∨
   (s.state = .COASTING ∧
      ∃ x vx rot, s.debris = some [pieceC1 x vx rot] ∧ 1700 ≤ x ∧ 0 < vx ∧
        x + 200 * vx ≤ 25409/10))

/-- The sequencer state during the pre-fracture stages of a run started at
(500, 400) under defaultCfg: only the state name and its timer vary. -/
def preState (st : CinState) (t : ℕ) : SeqState :=
  { state := st, stateTimer := t, posX := 500, posY := 400, isFinished := false,
    debris := none, coreSpawned := false, sparks := [], smokeClouds := [], genCalls := 0 }

/-- The sequencer state during the FRACTURING stage of the defaultCfg run:
the debris set is the fragmentation outcome nudged k times. -/
def fracState (o : List CinDebris) (k : ℕ) : SeqState :=
  { state := .FRACTURING, stateTimer := k, posX := 500, posY := 400, isFinished := false,
    debris := some ((List.map fractureNudge)^[k] o), coreSpawned := true,
    sparks := [], smokeClouds := [], genCalls := 1 }

/-- The sequencer state at entry to EXPANDING_CORE under defaultCfg: the
sparks and smoke clouds have just been spawned. -/
def expandEntry (o : List CinDebris) : SeqState :=
  { state := .EXPANDING_CORE, stateTimer := 0, posX := 500, posY := 400, isFinished := false,
    debris := some ((List.map fractureNudge)^[15] o), coreSpawned := true,
    sparks := List.replicate SPARK_COUNT newSpark,
    smokeClouds := List.replicate SMOKE_CLOUD_COUNT newSmokeCloud, genCalls := 1 }

/-! ### General lemmas about the sequencer -/

theorem seqUpdate_of_finished (cfg : SeqCfg) (s : SeqState) (h : s.isFinished = true) :
    seqUpdate cfg s = s := by
  simp [seqUpdate, h]

theorem iterate_of_finished (cfg : SeqCfg) (s : SeqState) (h : s.isFinished = true) :
    ∀ k, (seqUpdate cfg)^[k] s = s := by
  intro k
  induction k with
  | zero => rfl
  | succ n ih => rw [Function.iterate_succ_apply', ih, seqUpdate_of_finished cfg s h]

theorem iterate_finished_mono (cfg : SeqCfg) (s : SeqState) (m n : ℕ) (hmn : m ≤ n)
    (h : ((seqUpdate cfg)^[m] s).isFinished = true) :
    ((seqUpdate cfg)^[n] s).isFinished = true := by
  obtain ⟨k, rfl⟩ := Nat.exists_eq_add_of_le hmn
  rw [Nat.add_comm, Function.iterate_add_apply, iterate_of_finished cfg _ h k]
  exact h

theorem seqUpdate_genCalls_mono (cfg : SeqCfg) (s : SeqState) :
    s.genCalls ≤ (seqUpdate cfg s).genCalls := by
  obtain ⟨st, t, px, py, fin, db, cs, sp, sm, g⟩ := s
  cases fin
  · cases st <;> simp only [seqUpdate, Bool.false_eq_true, if_false] <;>
      first
      | (split <;> simp)
      | simp
  · simp [seqUpdate]

theorem iterate_genCalls_mono (cfg : SeqCfg) (s : SeqState) (m n : ℕ) (hmn : m ≤ n) :
    ((seqUpdate cfg)^[m] s).genCalls ≤ ((seqUpdate cfg)^[n] s).genCalls := by
  obtain ⟨k, rfl⟩ := Nat.exists_eq_add_of_le hmn
  clear hmn
  rw [Nat.add_comm, Function.iterate_add_apply]
  induction k with
  | zero => exact le_refl _
  | succ j ih =>
      rw [Function.iterate_succ_apply']
      exact le_trans ih (seqUpdate_genCalls_mono cfg _)

/-- Once the state machine has passed the INITIAL_FLASH transition it stays
in the three post-fracture states and the fragment generator is never
invoked again. -/
theorem seqUpdate_post_fracture (cfg : SeqCfg) (s : SeqState)
    (h : s.state = .FRACTURING ∨ s.state = .EXPANDING_CORE ∨ s.state = .COASTING) :
    ((seqUpdate cfg s).state = .FRACTURING ∨ (seqUpdate cfg s).state = .EXPANDING_CORE ∨
      (seqUpdate cfg s).state = .COASTING) ∧
    (seqUpdate cfg s).genCalls = s.genCalls := by
  obtain ⟨st, t, px, py, fin, db, cs, sp, sm, g⟩ := s
  dsimp only at h
  cases fin
  · rcases h with h | h | h <;> subst h <;>
      simp only [seqUpdate, Bool.false_eq_true, if_false] <;>
      first
      | (split <;> simp)
      | simp
  · rw [seqUpdate_of_finished cfg _ rfl]
    exact ⟨h, rfl⟩

/-! ### The trajectory of a defaultCfg run up to the EXPAND entry -/

theorem iterate_stage (f : SeqState → SeqState) (g : ℕ → SeqState) (K : ℕ)
    (hstep : ∀ k, k < K → f (g k) = g (k + 1)) :
    ∀ k, k ≤ K → f^[k] (g 0) = g k := by
  intro k hk
  induction k with
  | zero => rfl
  | succ n ih =>
      rw [Function.iterate_succ_apply', ih (by omega), hstep n (by omega)]

theorem preStep_shake1 (o : List CinDebris) (t : ℕ) (h : t + 1 < 15) :
    seqUpdate (defaultCfg o) (preState .SHAKE_1 t) = preState .SHAKE_1 (t + 1) := by
  have hd : ¬ ((defaultCfg o).shake1Duration ≤ t + 1) := by
    simp only [defaultCfg, SHAKE_1_DURATION]
    omega
  simp only [seqUpdate, preState, Bool.false_eq_true, if_false]
  rw [if_neg hd]
  simp [defaultCfg]

theorem preExit_shake1 (o : List CinDebris) :
    seqUpdate (defaultCfg o) (preState .SHAKE_1 14) = preState .DELAY_1 0 := by
  have hd : (defaultCfg o).shake1Duration ≤ 14 + 1 := by
    simp [defaultCfg, SHAKE_1_DURATION]
  simp only [seqUpdate, preState, Bool.false_eq_true, if_false]
  rw [if_pos hd]
  simp [defaultCfg]

theorem preStep_delay1 (o : List CinDebris) (t : ℕ) (h : t + 1 < 60) :
    seqUpdate (defaultCfg o) (preState .DELAY_1 t) = preState .DELAY_1 (t + 1) := by
  have hd : ¬ ((defaultCfg o).delay1Duration ≤ t + 1) := by
    simp only [defaultCfg, DELAY_1_DURATION]
    omega
  simp only [seqUpdate, preState, Bool.false_eq_true, if_false]
  rw [if_neg hd]
  simp [defaultCfg]

theorem preExit_delay1 (o : List CinDebris) :
    seqUpdate (defaultCfg o) (preState .DELAY_1 59) = preState .SHAKE_2 0 := by
  have hd : (defaultCfg o).delay1Duration ≤ 59 + 1 := by
    simp [defaultCfg, DELAY_1_DURATION]
  simp only [seqUpdate, preState, Bool.false_eq_true, if_false]
  rw [if_pos hd]
  simp [defaultCfg]

theorem preStep_shake2 (o : List CinDebris) (t : ℕ) (h : t + 1 < 20) :
    seqUpdate (defaultCfg o) (preState .SHAKE_2 t) = preState .SHAKE_2 (t + 1) := by
  have hd : ¬ ((defaultCfg o).shake2Duration ≤ t + 1) := by
    simp only [defaultCfg, SHAKE_2_DURATION]
    omega
  simp only [seqUpdate, preState, Bool.false_eq_true, if_false]
  rw [if_neg hd]
  simp [defaultCfg]

theorem preExit_shake2 (o : List CinDebris) :
    seqUpdate (defaultCfg o) (preState .SHAKE_2 19) = preState .DELAY_2 0 := by
  have hd : (defaultCfg o).shake2Duration ≤ 19 + 1 := by
    simp [defaultCfg, SHAKE_2_DURATION]
  simp only [seqUpdate, preState, Bool.false_eq_true, if_false]
  rw [if_pos hd]
  simp [defaultCfg]

theorem preStep_delay2 (o : List CinDebris) (t : ℕ) (h : t + 1 < 60) :
    seqUpdate (defaultCfg o) (preState .DELAY_2 t) = preState .DELAY_2 (t + 1) := by
  have hd : ¬ ((defaultCfg o).delay2Duration ≤ t + 1) := by
    simp only [defaultCfg, DELAY_2_DURATION]
    omega
  simp only [seqUpdate, preState, Bool.false_eq_true, if_false]
  rw [if_neg hd]
  simp [defaultCfg]

theorem preExit_delay2 (o : List CinDebris) :
    seqUpdate (defaultCfg o) (preState .DELAY_2 59) = preState .INITIAL_FLASH 0 := by
  have hd : (defaultCfg o).delay2Duration ≤ 59 + 1 := by
    simp [defaultCfg, DELAY_2_DURATION]
  simp only [seqUpdate, preState, Bool.false_eq_true, if_false]
  rw [if_pos hd]
  simp [defaultCfg]

theorem preStep_flash (o : List CinDebris) (t : ℕ) (h : t + 1 < 8) :
    seqUpdate (defaultCfg o) (preState .INITIAL_FLASH t) = preState .INITIAL_FLASH (t + 1) := by
  have hd : ¬ ((defaultCfg o).flashDuration ≤ t + 1) := by
    simp only [defaultCfg, FLASH_DURATION]
    omega
  simp only [seqUpdate, preState, Bool.false_eq_true, if_false]
  rw [if_neg hd]
  simp [defaultCfg]

theorem preExit_flash (o : List CinDebris) :
    seqUpdate (defaultCfg o) (preState .INITIAL_FLASH 7) = fracState o 0 := by
  have hd : (defaultCfg o).flashDuration ≤ 7 + 1 := by
    simp [defaultCfg, FLASH_DURATION]
  simp only [seqUpdate, preState, fracState, Bool.false_eq_true, if_false]
  rw [if_pos hd]
  simp [defaultCfg]

theorem fracStep (o : List CinDebris) (k : ℕ) (h : k + 1 < 15) :
    seqUpdate (defaultCfg o) (fracState o k) = fracState o (k + 1) := by
  have hd : ¬ ((defaultCfg o).fractureDuration ≤ k + 1) := by
    simp only [defaultCfg, FRACTURE_DURATION]
    omega
  simp only [seqUpdate, fracState, Bool.false_eq_true, if_false]
  rw [if_neg hd]
  simp [defaultCfg, Function.iterate_succ_apply']

theorem fracExit (o : List CinDebris) :
    seqUpdate (defaultCfg o) (fracState o 14) = expandEntry o := by
  have hd : (defaultCfg o).fractureDuration ≤ 14 + 1 := by
    simp [defaultCfg, FRACTURE_DURATION]
  simp only [seqUpdate, fracState, expandEntry, Bool.false_eq_true, if_false]
  rw [if_pos hd]
  rw [show (15:ℕ) = 14 + 1 from rfl]
  simp [defaultCfg, Function.iterate_succ_apply']

theorem c5_r15 (o : List CinDebris) :
    (seqUpdate (defaultCfg o))^[15] (seqInit 500 400) = preState .DELAY_1 0 := by
  rw [show seqInit 500 400 = preState .SHAKE_1 0 from rfl]
  rw [show (15:ℕ) = 14 + 1 from rfl, Function.iterate_succ_apply']
  rw [iterate_stage _ (fun k => preState .SHAKE_1 k) 14
    (fun k hk => preStep_shake1 o k (by omega)) 14 le_rfl]
  exact preExit_shake1 o

theorem c5_r75 (o : List CinDebris) :
    (seqUpdate (defaultCfg o))^[75] (seqInit 500 400) = preState .SHAKE_2 0 := by
  rw [show (75:ℕ) = 60 + 15 from rfl, Function.iterate_add_apply, c5_r15]
  rw [show (60:ℕ) = 59 + 1 from rfl, Function.iterate_succ_apply']
  rw [iterate_stage _ (fun k => preState .DELAY_1 k) 59
    (fun k hk => preStep_delay1 o k (by omega)) 59 le_rfl]
  exact preExit_delay1 o

theorem c5_r95 (o : List CinDebris) :
    (seqUpdate (defaultCfg o))^[95] (seqInit 500 400) = preState .DELAY_2 0 := by
  rw [show (95:ℕ) = 20 + 75 from rfl, Function.iterate_add_apply, c5_r75]
  rw [show (20:ℕ) = 19 + 1 from rfl, Function.iterate_succ_apply']
  rw [iterate_stage _ (fun k => preState .SHAKE_2 k) 19
    (fun k hk => preStep_shake2 o k (by omega)) 19 le_rfl]
  exact preExit_shake2 o

theorem c5_r155 (o : List CinDebris) :
    (seqUpdate (defaultCfg o))^[155] (seqInit 500 400) = preState .INITIAL_FLASH 0 := by
  rw [show (155:ℕ) = 60 + 95 from rfl, Function.iterate_add_apply, c5_r95]
  rw [show (60:ℕ) = 59 + 1 from rfl, Function.iterate_succ_apply']
  rw [iterate_stage _ (fun k => preState .DELAY_2 k) 59
    (fun k hk => preStep_delay2 o k (by omega)) 59 le_rfl]
  exact preExit_delay2 o

theorem c5_r162 (o : List CinDebris) :
    (seqUpdate (defaultCfg o))^[162] (seqInit 500 400) = preState .INITIAL_FLASH 7 := by
  rw [show (162:ℕ) = 7 + 155 from rfl, Function.iterate_add_apply, c5_r155]
  exact iterate_stage _ (fun k => preState .INITIAL_FLASH k) 7
    (fun k hk => preStep_flash o k (by omega)) 7 le_rfl

theorem c5_r163 (o : List CinDebris) :
    (seqUpdate (defaultCfg o))^[163] (seqInit 500 400) = fracState o 0 := by
  rw [show (163:ℕ) = 162 + 1 from rfl, Function.iterate_succ_apply', c5_r162]
  exact preExit_flash o

theorem c5_r178 (o : List CinDebris) :
    (seqUpdate (defaultCfg o))^[178] (seqInit 500 400) = expandEntry o := by
  rw [show (178:ℕ) = 177 + 1 from rfl, Function.iterate_succ_apply']
  rw [show (177:ℕ) = 14 + 163 from rfl, Function.iterate_add_apply, c5_r163]
  rw [iterate_stage _ (fun k => fracState o k) 14
    (fun k hk => fracStep o k (by omega)) 14 le_rfl]
  exact fracExit o

theorem iterate_post_fracture_genCalls (o : List CinDebris) :
    ∀ k, ((seqUpdate (defaultCfg o))^[163 + k] (seqInit 500 400)).genCalls = 1 ∧
      (((seqUpdate (defaultCfg o))^[163 + k] (seqInit 500 400)).state = .FRACTURING ∨
       ((seqUpdate (defaultCfg o))^[163 + k] (seqInit 500 400)).state = .EXPANDING_CORE ∨
       ((seqUpdate (defaultCfg o))^[163 + k] (seqInit 500 400)).state = .COASTING) := by
  intro k
  induction k with
  | zero =>
      rw [c5_r163]
      exact ⟨rfl, Or.inl rfl⟩
  | succ j ih =>
      rw [show 163 + (j + 1) = (163 + j) + 1 from rfl, Function.iterate_succ_apply']
      obtain ⟨hg, hst⟩ := ih
      obtain ⟨hst2, hg2⟩ := seqUpdate_post_fracture (defaultCfg o) _ hst
      exact ⟨by rw [hg2, hg], hst2⟩

theorem c5_genCalls_le (o : List CinDebris) (n : ℕ) :
    ((seqUpdate (defaultCfg o))^[n] (seqInit 500 400)).genCalls ≤ 1 := by
  rcases le_or_lt n 162 with hn | hn
  · have h1 := iterate_genCalls_mono (defaultCfg o) (seqInit 500 400) n 162 hn
    rw [c5_r162] at h1
    exact le_trans h1 (by norm_num [preState])
  · obtain ⟨k, rfl⟩ : ∃ k, n = 163 + k := ⟨n - 163, by omega⟩
    rw [(iterate_post_fracture_genCalls o k).1]

/-! ### The cfgC1 run never finishes -/

theorem c1Inv_step (s : SeqState) (h : c1Inv s) : c1Inv (seqUpdate cfgC1 s) := by
  obtain ⟨hfin, hcase⟩ := h
  obtain ⟨st, t, px, py, fin, db, cs, sp, sm, g⟩ := s
  dsimp only at hfin
  subst hfin
  rcases hcase with ⟨hdb, hst⟩ | ⟨hst, htm, x, rot, hdb, hx1, hx2⟩ |
    ⟨hst, htm, x, rot, hdb, hx1, hx2⟩ | ⟨hst, x, vx, rot, hdb, hx1, hvx, hx2⟩ <;>
    dsimp only at hst hdb
  · subst hdb
    rcases hst with h | h | h | h | h <;> subst h <;>
      simp only [seqUpdate, Bool.false_eq_true, if_false]
    · by_cases hd : cfgC1.shake1Duration ≤ t + 1
      · rw [if_pos hd]
        exact ⟨rfl, Or.inl ⟨rfl, by simp⟩⟩
      · rw [if_neg hd]
        exact ⟨rfl, Or.inl ⟨rfl, by simp⟩⟩
    · by_cases hd : cfgC1.delay1Duration ≤ t + 1
      · rw [if_pos hd]
        exact ⟨rfl, Or.inl ⟨rfl, by simp⟩⟩
      · rw [if_neg hd]
        exact ⟨rfl, Or.inl ⟨rfl, by simp⟩⟩
    · by_cases hd : cfgC1.shake2Duration ≤ t + 1
      · rw [if_pos hd]
        exact ⟨rfl, Or.inl ⟨rfl, by simp⟩⟩
      · rw [if_neg hd]
        exact ⟨rfl, Or.inl ⟨rfl, by simp⟩⟩
    · by_cases hd : cfgC1.delay2Duration ≤ t + 1
      · rw [if_pos hd]
        exact ⟨rfl, Or.inl ⟨rfl, by simp⟩⟩
      · rw [if_neg hd]
        exact ⟨rfl, Or.inl ⟨rfl, by simp⟩⟩
    · by_cases hd : cfgC1.flashDuration ≤ t + 1
      · rw [if_pos hd]
        refine ⟨rfl, Or.inr (Or.inl ⟨rfl, by norm_num, 1700, 0, ?_, le_refl _, by norm_num⟩)⟩
        simp [cfgC1, pieceC1]
      · rw [if_neg hd]
        exact ⟨rfl, Or.inl ⟨rfl, by simp⟩⟩
  · subst hst hdb
    dsimp only at htm hx2
    simp only [seqUpdate, Bool.false_eq_true, if_false]
    have hds : List.map fractureNudge [pieceC1 x 3 rot] = [pieceC1 (x + 3/50) 3 rot] := by
      simp [pieceC1, fractureNudge, FRACTURE_SPEED]
      norm_num
    by_cases hd : cfgC1.fractureDuration ≤ t + 1
    · rw [if_pos hd]
      have ht14 : t = 14 := by
        simp [cfgC1, FRACTURE_DURATION] at hd
        omega
      subst ht14
      refine ⟨rfl, Or.inr (Or.inr (Or.inl ⟨rfl, by norm_num, x + 3/50, rot, ?_, by linarith, ?_⟩))⟩
      · simp only [Option.getD_some, hds]
      · push_cast at hx2 ⊢
        norm_num at hx2 ⊢
        linarith
    · rw [if_neg hd]
      have ht13 : t ≤ 13 := by
        simp [cfgC1, FRACTURE_DURATION] at hd
        omega
      refine ⟨rfl, Or.inr (Or.inl ⟨rfl, by dsimp only; omega, x + 3/50, rot, ?_, by linarith, ?_⟩)⟩
      · simp only [Option.getD_some, hds]
      · push_cast at hx2 ⊢
        ring_nf at hx2 ⊢
        linarith
  · subst hst hdb
    dsimp only at htm hx2
    simp only [seqUpdate, Bool.false_eq_true, if_false]
    have hds : List.map (cinDebrisUpdate 1) [pieceC1 x 3 rot] = [pieceC1 (x + 3) 3 (rot + 0)] := by
      simp [pieceC1, cinDebrisUpdate]
    by_cases hd : cfgC1.expandDuration ≤ t + 1
    · rw [if_pos hd]
      have ht79 : t = 79 := by
        simp [cfgC1, EXPAND_DURATION] at hd
        omega
      subst ht79
      refine ⟨rfl, Or.inr (Or.inr (Or.inr ⟨rfl, x + 3, 3, rot + 0, ?_, by linarith, by norm_num, ?_⟩))⟩
      · simp only [Option.getD_some, hds]
      · push_cast at hx2
        norm_num at hx2 ⊢
        linarith
    · rw [if_neg hd]
      have ht78 : t ≤ 78 := by
        simp [cfgC1, EXPAND_DURATION] at hd
        omega
      refine ⟨rfl, Or.inr (Or.inr (Or.inl ⟨rfl, by dsimp only; omega, x + 3, rot + 0, ?_, by linarith, ?_⟩))⟩
      · simp only [Option.getD_some, hds]
      · push_cast at hx2 ⊢
        ring_nf at hx2 ⊢
        linarith
  · subst hst hdb
    simp only [seqUpdate, Bool.false_eq_true, if_false]
    have hxv1 : (1700 : ℚ) ≤ x + vx := by linarith
    have hxv2 : x + vx < 2541 := by nlinarith
    have hfl : (1700 : ℤ) ≤ ⌊x + vx⌋ := by
      rw [Int.le_floor]
      exact_mod_cast hxv1
    have hfu : ⌊x + vx⌋ < 2541 := by
      rw [Int.floor_lt]
      exact_mod_cast hxv2
    have hds : List.map (cinDebrisUpdate COASTING_DRAG) [pieceC1 x vx rot] =
        [pieceC1 (x + vx) (vx * (199/200)) (rot + 0)] := by
      simp [pieceC1, cinDebrisUpdate, COASTING_DRAG]
    have hcol : collidesScreen cfgC1.screenW cfgC1.screenH
        (pieceC1 (x + vx) (vx * (199/200)) (rot + 0)) = true := by
      simp only [collidesScreen, pieceC1, cfgC1, pyTrunc]
      rw [if_pos (by linarith : (0:ℚ) ≤ x + vx)]
      rw [if_pos (by norm_num : (0:ℚ) ≤ 2000)]
      rw [show ⌊(2000:ℚ)⌋ = 2000 from by norm_num]
      simp only [Bool.and_eq_true, decide_eq_true_eq]
      refine ⟨⟨⟨?_, ?_⟩, ?_⟩, ?_⟩ <;> push_cast <;> omega
    refine ⟨?_, Or.inr (Or.inr (Or.inr ⟨rfl, x + vx, vx * (199/200), rot + 0, ?_,
      by linarith, by positivity, by linarith⟩))⟩
    · simp only [Option.getD_some, hds, List.all_cons, List.all_nil, hcol]
      simp
    · simp only [Option.getD_some, hds]

theorem c1Inv_iterate : ∀ n, c1Inv ((seqUpdate cfgC1)^[n] (seqInit 2000 2000)) := by
  intro n
  induction n with
  | zero => exact ⟨rfl, Or.inl ⟨rfl, Or.inl rfl⟩⟩
  | succ k ih =>
      rw [Function.iterate_succ_apply']
      exact c1Inv_step _ ih

/-! ### Lemmas about the debris pieces of the asteroid module -/

theorem pyTruncR_nonneg (x : ℝ) (h : 0 ≤ x) : 0 ≤ pyTruncR x := by
  rw [pyTruncR, if_pos h]
  exact Int.floor_nonneg.mpr h

theorem pyTruncR_lt (x : ℝ) (c : ℤ) (h0 : 0 ≤ x) (h : x < c) : pyTruncR x < c := by
  rw [pyTruncR, if_pos h0]
  exact Int.floor_lt.mpr h

/-- Closed form of the first 60 ticks of the scenario piece of the
sucking debris class: it stays in the floating phase, moving one unit
right per tick while the lifetime counts down. -/
theorem c10_ast_run (x0 y0 : ℝ) : ∀ k, k ≤ 60 →
    (astUpdate 800 600 1)^[k] ⟨x0, y0, 1, 0, 0, 0, 120, 255, false, 60, 1⟩ =
      ⟨x0 + k, y0, 1, 0, 0, 0, 120 - k, 255, decide ((120 - (k:ℝ)) ≤ 60), 60, 1⟩ := by
  intro k hk
  induction k with
  | zero =>
      simp only [Function.iterate_zero_apply, Nat.cast_zero, add_zero, sub_zero]
      rw [show decide ((120:ℝ) ≤ 60) = false from decide_eq_false (by norm_num)]
  | succ n ih =>
      have hn59 : (n:ℝ) ≤ 59 := by exact_mod_cast (by omega : n ≤ 59)
      rw [Function.iterate_succ_apply', ih (by omega)]
      have hs : decide ((120 - (n:ℝ)) ≤ 60) = false := decide_eq_false (by linarith)
      simp only [astUpdate, hs, Bool.false_eq_true, if_false]
      rw [if_neg (show ¬ ((120 - (n:ℝ)) - 1 * 1 ≤ 0) by linarith)]
      rw [show (x0 + (n:ℝ)) + 1 * 1 = x0 + ((n+1 : ℕ):ℝ) by push_cast; ring]
      rw [show (y0:ℝ) + 0 * 1 = y0 by ring]
      rw [show (0:ℝ) + 0 * 1 = 0 by ring]
      rw [show (120 - (n:ℝ)) - 1 * 1 = 120 - ((n+1 : ℕ):ℝ) by push_cast; ring]

/-- Closed form of the first 60 ticks of the scenario piece of the
exploding debris class. -/
theorem c10_expl_run (x0 y0 : ℝ) : ∀ k, k ≤ 60 →
    (explUpdate 1)^[k] ⟨x0, y0, 1, 0, 0, 0, 120, 255⟩ =
      ⟨x0 + k, y0, 1, 0, 0, 0, 120 - k,
        pyTruncR (255 * ((120 - (k:ℝ)) / MAX_DEBRIS_LIFETIME_EXPLODE))⟩ := by
  intro k hk
  induction k with
  | zero =>
      simp only [Function.iterate_zero_apply, Nat.cast_zero, add_zero, sub_zero]
      rw [show pyTruncR (255 * ((120:ℝ) / MAX_DEBRIS_LIFETIME_EXPLODE)) = 255 by
        rw [show (255:ℝ) * ((120:ℝ) / MAX_DEBRIS_LIFETIME_EXPLODE) = 255 by
          rw [MAX_DEBRIS_LIFETIME_EXPLODE]; norm_num]
        rw [pyTruncR, if_pos (by norm_num : (0:ℝ) ≤ 255)]
        rw [show (255:ℝ) = ((255:ℤ):ℝ) by norm_num, Int.floor_intCast]]
  | succ n ih =>
      have hn59 : (n:ℝ) ≤ 59 := by exact_mod_cast (by omega : n ≤ 59)
      rw [Function.iterate_succ_apply', ih (by omega)]
      simp only [explUpdate]
      rw [if_neg (show ¬ ((120 - (n:ℝ)) - 1 * 1 ≤ 0) by linarith)]
      rw [show (x0 + (n:ℝ)) + 1 * 1 = x0 + ((n+1 : ℕ):ℝ) by push_cast; ring]
      rw [show (y0:ℝ) + 0 * 1 = y0 by ring]
      rw [show (0:ℝ) + 0 * 1 = 0 by ring]
      rw [show (120 - (n:ℝ)) - 1 * 1 = 120 - ((n+1 : ℕ):ℝ) by push_cast; ring]

/-! ### The claims -/

/-- C1, counterexample: on the reachable configuration cfgC1 (default
durations, 4000 x 4000 screen, one slow fragment) the sequencer NEVER
reports completion: update() can be called infinitely often without
is_done() becoming true, because the 0.995 coasting drag bounds the total
remaining travel of the piece by 200 times its speed, which is not enough
to leave the screen. -/
theorem c1_counterexample :
    ¬ ∃ n, ((seqUpdate cfgC1)^[n] (seqInit 2000 2000)).isFinished = true := by
  rintro ⟨n, hn⟩
  rw [(c1Inv_iterate n).1] at hn
  exact Bool.false_ne_true hn

set_option maxRecDepth 8000 in
/-- C1, amended: with the module duration constants and an empty
fragmentation outcome the sequencer enters COASTING after exactly 258
update() calls (the sum 15+60+20+60+8+15+80 of the timed state durations)
and is_done() becomes true on call 259 and at no earlier call; but
termination is not guaranteed for every RNG outcome (see the
counterexample). -/
theorem c1_theorem :
    ((seqUpdate (defaultCfg []))^[258] (seqInit 500 400)).state = CinState.COASTING ∧
    ((seqUpdate (defaultCfg []))^[259] (seqInit 500 400)).isFinished = true ∧
    ∀ n, n < 259 → ((seqUpdate (defaultCfg []))^[n] (seqInit 500 400)).isFinished = false := by
  refine ⟨by decide, by decide, ?_⟩
  intro n hn
  by_contra h
  have h258 : ((seqUpdate (defaultCfg []))^[258] (seqInit 500 400)).isFinished = true := by
    refine iterate_finished_mono _ _ n 258 (by omega) ?_
    simpa using h
  have h258f : ((seqUpdate (defaultCfg []))^[258] (seqInit 500 400)).isFinished = false := by
    decide
  rw [h258f] at h258
  exact Bool.false_ne_true h258

theorem c1_theorem_witness :
    ((seqUpdate (defaultCfg []))^[100] (seqInit 500 400)).isFinished = false :=
  c1_theorem.2.2 100 (by norm_num)

/-- C2, counterexample: with every timed state duration set to one frame
and an empty debris set, is_done() is already true after 8 update()
calls, not 9: the code has eight states and completion is flagged inside
the first COASTING update, there is no ninth FINISHED step. -/
theorem c2_counterexample :
    ((seqUpdate cfgUnit)^[8] (seqInit 500 400)).isFinished = true := by
  decide

/-- C2, amended: with every timed state duration set to one frame and an
empty debris set, is_done() returns true after exactly 8 update() calls
and false after any fewer. -/
theorem c2_theorem :
    ((seqUpdate cfgUnit)^[8] (seqInit 500 400)).isFinished = true ∧
    ∀ n, n < 8 → ((seqUpdate cfgUnit)^[n] (seqInit 500 400)).isFinished = false := by
  constructor
  · decide
  · decide

theorem c2_theorem_witness :
    ((seqUpdate cfgUnit)^[3] (seqInit 500 400)).isFinished = false :=
  c2_theorem.2 3 (by norm_num)

/-- C3: in the COASTING state an empty debris list makes the very next
update() call set is_finished: the all-off-screen flag starts true and
the loop over the empty list never clears it, so an empty fragmentation
outcome can never stall the COAST state. -/
theorem c3_theorem (cfg : SeqCfg) (s : SeqState) (hf : s.isFinished = false)
    (hs : s.state = CinState.COASTING) (hd : s.debris = some []) :
    (seqUpdate cfg s).isFinished = true := by
  obtain ⟨st, t, px, py, fin, db, cs, sp, sm, g⟩ := s
  dsimp only at hf hs hd
  subst hf hs hd
  simp [seqUpdate]

theorem c3_theorem_witness :
    (seqUpdate (defaultCfg [])
      { state := CinState.COASTING, stateTimer := 0, posX := 500, posY := 400,
        isFinished := false, debris := some [], coreSpawned := true, sparks := [],
        smokeClouds := [], genCalls := 1 }).isFinished = true :=
  c3_theorem (defaultCfg [])
    { state := CinState.COASTING, stateTimer := 0, posX := 500, posY := 400,
      isFinished := false, debris := some [], coreSpawned := true, sparks := [],
      smokeClouds := [], genCalls := 1 } rfl rfl rfl

/-- C4: the code never renders the flash overlay.  While the sequencer is
in the INITIAL_FLASH state, every draw() call renders the intact rotated
ship, because INITIAL_FLASH is included in the state list of the first
branch of the if/elif chain and the overlay elif below it is unreachable.
This contradicts the claimed full-screen overlay with linearly fading
alpha (which is exactly what the dead branch would compute). -/
theorem c4_theorem (t : ℕ) (px py : ℚ) (db : Option (List CinDebris)) (cs : Bool)
    (sp : List Spark) (sm : List SmokeCloud) (g : ℕ) :
    cinematicDraw
      { state := CinState.INITIAL_FLASH, stateTimer := t, posX := px, posY := py,
        isFinished := false, debris := db, coreSpawned := cs, sparks := sp,
        smokeClouds := sm, genCalls := g } = DrawOutput.intactShip := rfl

/-- C5, counterexample: one update() call after the sequencer has entered
the FRACTURING state (call 164 of the default run, here with an empty
fragmentation outcome) the explosion core exists but NO sparks and NO
smoke clouds have been spawned - they appear only at the later
FRACTURING to EXPANDING_CORE transition, contradicting the claim that
they are spawned on entry to FRACTURE. -/
theorem c5_counterexample :
    ((seqUpdate (defaultCfg []))^[164] (seqInit 500 400)).state = CinState.FRACTURING ∧
    ((seqUpdate (defaultCfg []))^[164] (seqInit 500 400)).coreSpawned = true ∧
    ((seqUpdate (defaultCfg []))^[164] (seqInit 500 400)).sparks = [] ∧
    ((seqUpdate (defaultCfg []))^[164] (seqInit 500 400)).smokeClouds = [] := by
  have h : (seqUpdate (defaultCfg []))^[164] (seqInit 500 400) = fracState [] 1 := by
    rw [show (164:ℕ) = 163 + 1 from rfl, Function.iterate_succ_apply', c5_r163]
    exact fracStep [] 0 (by norm_num)
  rw [h]
  exact ⟨rfl, rfl, rfl, rfl⟩

/-- C5, amended: for every fragmentation outcome o, the default-duration
run invokes the fragment generator exactly once, at the
INITIAL_FLASH to FRACTURING transition (update 163): the ghost call
counter is 0 through update 162 and never exceeds 1; the debris set and
the explosion core are created at that same transition; the fixed
SPARK_COUNT sparks and SMOKE_CLOUD_COUNT smoke clouds are spawned at the
FRACTURING to EXPANDING_CORE transition (update 178); and the debris list
of update 178 is the once-created set with only its elements moved (same
length). -/
theorem c5_theorem (o : List CinDebris) :
    ((seqUpdate (defaultCfg o))^[162] (seqInit 500 400)).genCalls = 0 ∧
    ((seqUpdate (defaultCfg o))^[162] (seqInit 500 400)).debris = none ∧
    ((seqUpdate (defaultCfg o))^[162] (seqInit 500 400)).coreSpawned = false ∧
    ((seqUpdate (defaultCfg o))^[163] (seqInit 500 400)).state = CinState.FRACTURING ∧
    ((seqUpdate (defaultCfg o))^[163] (seqInit 500 400)).debris = some o ∧
    ((seqUpdate (defaultCfg o))^[163] (seqInit 500 400)).coreSpawned = true ∧
    ((seqUpdate (defaultCfg o))^[163] (seqInit 500 400)).genCalls = 1 ∧
    ((seqUpdate (defaultCfg o))^[163] (seqInit 500 400)).sparks = [] ∧
    ((seqUpdate (defaultCfg o))^[163] (seqInit 500 400)).smokeClouds = [] ∧
    ((seqUpdate (defaultCfg o))^[178] (seqInit 500 400)).state = CinState.EXPANDING_CORE ∧
    ((seqUpdate (defaultCfg o))^[178] (seqInit 500 400)).sparks.length = SPARK_COUNT ∧
    ((seqUpdate (defaultCfg o))^[178] (seqInit 500 400)).smokeClouds.length = SMOKE_CLOUD_COUNT ∧
    (∃ d, ((seqUpdate (defaultCfg o))^[178] (seqInit 500 400)).debris = some d ∧
      d.length = o.length) ∧
    (∀ n, ((seqUpdate (defaultCfg o))^[n] (seqInit 500 400)).genCalls ≤ 1) := by
  refine ⟨?_, ?_, ?_, ?_, ?_, ?_, ?_, ?_, ?_, ?_, ?_, ?_, ?_, c5_genCalls_le o⟩
  · rw [c5_r162]; rfl
  · rw [c5_r162]; rfl
  · rw [c5_r162]; rfl
  · rw [c5_r163]; rfl
  · rw [c5_r163]; rfl
  · rw [c5_r163]; rfl
  · rw [c5_r163]; rfl
  · rw [c5_r163]; rfl
  · rw [c5_r163]; rfl
  · rw [c5_r178]; rfl
  · rw [c5_r178]
    simp [expandEntry, SPARK_COUNT]
  · rw [c5_r178]
    simp [expandEntry, SMOKE_CLOUD_COUNT]
  · rw [c5_r178]
    have hlen : ∀ (k : ℕ) (l : List CinDebris),
        ((List.map fractureNudge)^[k] l).length = l.length := by
      intro k
      induction k with
      | zero => intro l; rfl
      | succ n ih =>
          intro l
          rw [Function.iterate_succ_apply, ih, List.length_map]
    exact ⟨(List.map fractureNudge)^[15] o, rfl, hlen 15 o⟩

/-- C6, counterexample: the cinematic debris routine ignores the offset
entirely (a fragment at maximal offset 50 on a 100 x 100 image with
uniform draw 4 gets speed 4, not 4 * 1.5), and the asteroid base routine
crosses the coordinates in its hypot call, which differs from the claimed
formula on the non-square 100 x 200 image at bbox center (50, 200). -/
theorem c6_counterexample :
    cinematicDebrisSpeed 4 50 100 100 100 ≠ 4 * specSpeedModifier 50 100 100 100 ∧
    asteroidDebrisBaseSpeed 1 50 200 100 200 ≠ 1 * specSpeedModifier 50 200 100 200 := by
  constructor
  · unfold cinematicDebrisSpeed specSpeedModifier
    norm_num
    rw [show Real.sqrt (2500:ℝ) = 50 by
      rw [show (2500:ℝ) = 50 ^ 2 by norm_num, Real.sqrt_sq (by norm_num : (0:ℝ) ≤ 50)]]
    norm_num
  · unfold asteroidDebrisBaseSpeed specSpeedModifier
    norm_num
    intro heq
    have h3 : Real.sqrt (25000:ℝ) = Real.sqrt 10000 := by linarith
    have h4 := Real.sq_sqrt (by norm_num : (0:ℝ) ≤ 25000)
    have h5 := Real.sq_sqrt (by norm_num : (0:ℝ) ≤ 10000)
    rw [h3, h5] at h4
    norm_num at h4

/-- C6, amended: create_ship_debris computes the speed exactly as
u * (0.5 + |offset| / max_radius); the asteroid base routine agrees with
that formula only on square images (its hypot arguments are crossed);
the cinematic routine applies no modifier at all, its speed is the
uniform draw unchanged. -/
theorem c6_theorem :
    (∀ (u px py : ℝ) (w h : ℕ), shipDebrisSpeed u px py w h = u * specSpeedModifier px py w h) ∧
    (∀ (u px py : ℝ) (a : ℕ),
      asteroidDebrisBaseSpeed u px py a a = u * specSpeedModifier px py a a) ∧
    (∀ (u px py : ℝ) (w h : ℕ), cinematicDebrisSpeed u px py w h = u) :=
  ⟨fun _ _ _ _ _ => rfl, fun _ _ _ _ => rfl, fun _ _ _ _ _ => rfl⟩

/-- C7, counterexample: lifetime is driven negative by an update whose dt
exceeds the remaining lifetime: an exploding piece with lifetime 1
updated with dt_factor 2 ends at lifetime -1 (the code subtracts dt with
no clamp). -/
theorem c7_counterexample : (explUpdate 2 ⟨0, 0, 0, 0, 0, 0, 1, 255⟩).lifetime < 0 := by
  simp only [explUpdate]
  rw [if_pos (by norm_num : (1:ℝ) - 1 * 2 ≤ 0)]
  norm_num

set_option maxHeartbeats 1000000 in
/-- C7, amended: for one update(dt) with 0 < dt: lifetime never increases
for either debris class; it stays nonnegative provided dt does not exceed
the remaining lifetime (as with the dt = 1 ticks of every in-repo caller,
which also drop dead pieces); alpha stays within [0, 255] (for the
exploding class given lifetime at most its max of 120); and the sucked-in
phase flag is one-directional. -/
theorem c7_theorem (screenW screenH : ℕ) (dt : ℝ) (p : AstPiece) (q : ExplPiece)
    (hdt : 0 < dt) (hpl : 0 ≤ p.lifetime) (hpf : p.suckedIn = false → dt ≤ p.lifetime)
    (hpa0 : 0 ≤ p.alpha) (hpa255 : p.alpha ≤ 255)
    (hql : dt ≤ q.lifetime) (hqm : q.lifetime ≤ 120) :
    ((astUpdate screenW screenH dt p).lifetime ≤ p.lifetime ∧
     0 ≤ (astUpdate screenW screenH dt p).lifetime ∧
     0 ≤ (astUpdate screenW screenH dt p).alpha ∧
     (astUpdate screenW screenH dt p).alpha ≤ 255 ∧
     (p.suckedIn = true → (astUpdate screenW screenH dt p).suckedIn = true)) ∧
    ((explUpdate dt q).lifetime ≤ q.lifetime ∧
     0 ≤ (explUpdate dt q).lifetime ∧
     0 ≤ (explUpdate dt q).alpha ∧ (explUpdate dt q).alpha ≤ 255) := by
  constructor
  · obtain ⟨px, py, vx, vy, rs, ra, lt, al, si, st, sw⟩ := p
    dsimp only at hpl hpf hpa0 hpa255
    cases si
    · have hdl : dt ≤ lt := hpf rfl
      simp only [astUpdate, Bool.false_eq_true, if_false]
      split_ifs with hw <;>
        refine ⟨by dsimp only; linarith, by dsimp only; linarith, ?_, ?_, by simp⟩ <;>
        dsimp only <;> linarith
    · simp only [astUpdate]
      set D := Real.sqrt ((((screenW / 2 : ℕ) : ℝ) - px) ^ 2 +
        (((screenH / 2 : ℕ) : ℝ) - py) ^ 2) with hD
      have hDnn : 0 ≤ D := hD ▸ Real.sqrt_nonneg _
      have hmax0 : (0:ℤ) ≤ max 0 (pyTruncR (255 * (D / 100))) := le_max_left 0 _
      have hmax255 : D < 100 → max 0 (pyTruncR (255 * (D / 100))) ≤ 255 := by
        intro h100
        refine max_le (by norm_num) ?_
        refine le_trans (Int.le_of_lt (pyTruncR_lt _ 255 (by nlinarith) ?_)) (by norm_num)
        push_cast
        nlinarith
      split_ifs with h1 h2 h3 h4 h5 h6 h7 h8 h9 h10 h11 h12 h13 h14 <;>
        refine ⟨?_, ?_, ?_, ?_, fun _ => ?_⟩ <;>
        dsimp only <;>
        first
          | exact le_rfl
          | exact rfl
          | linarith
          | exact hmax0
          | exact hmax255 (by assumption)
  · obtain ⟨qx, qy, qvx, qvy, qrs, qra, qlt, qal⟩ := q
    dsimp only at hql hqm
    simp only [explUpdate, MAX_DEBRIS_LIFETIME_EXPLODE]
    split_ifs with hw
    · refine ⟨by dsimp only; linarith, by dsimp only; linarith, by norm_num, by norm_num⟩
    · dsimp only
      refine ⟨by linarith, by linarith, ?_, ?_⟩
      · refine pyTruncR_nonneg _ ?_
        have : 0 < qlt - 1 * dt := by linarith
        positivity
      · refine le_trans (Int.le_of_lt (pyTruncR_lt _ 255 ?_ ?_)) (by norm_num)
        · have : 0 < qlt - 1 * dt := by linarith
          positivity
        · have h1 : qlt - 1 * dt < 120 := by linarith
          push_cast
          nlinarith

theorem c7_theorem_witness :
    ((astUpdate 800 600 1 ⟨0, 0, 1, 0, 0, 0, 120, 255, false, 60, 1⟩).lifetime ≤
       (⟨0, 0, 1, 0, 0, 0, 120, 255, false, 60, 1⟩ : AstPiece).lifetime ∧
     0 ≤ (astUpdate 800 600 1 ⟨0, 0, 1, 0, 0, 0, 120, 255, false, 60, 1⟩).lifetime ∧
     0 ≤ (astUpdate 800 600 1 ⟨0, 0, 1, 0, 0, 0, 120, 255, false, 60, 1⟩).alpha ∧
     (astUpdate 800 600 1 ⟨0, 0, 1, 0, 0, 0, 120, 255, false, 60, 1⟩).alpha ≤ 255 ∧
     ((⟨0, 0, 1, 0, 0, 0, 120, 255, false, 60, 1⟩ : AstPiece).suckedIn = true →
       (astUpdate 800 600 1 ⟨0, 0, 1, 0, 0, 0, 120, 255, false, 60, 1⟩).suckedIn = true)) ∧
    ((explUpdate 1 ⟨0, 0, 1, 0, 0, 0, 120, 255⟩).lifetime ≤
       (⟨0, 0, 1, 0, 0, 0, 120, 255⟩ : ExplPiece).lifetime ∧
     0 ≤ (explUpdate 1 ⟨0, 0, 1, 0, 0, 0, 120, 255⟩).lifetime ∧
     0 ≤ (explUpdate 1 ⟨0, 0, 1, 0, 0, 0, 120, 255⟩).alpha ∧
     (explUpdate 1 ⟨0, 0, 1, 0, 0, 0, 120, 255⟩).alpha ≤ 255) :=
  c7_theorem 800 600 1 ⟨0, 0, 1, 0, 0, 0, 120, 255, false, 60, 1⟩
    ⟨0, 0, 1, 0, 0, 0, 120, 255⟩ (by norm_num) (by norm_num) (fun _ => by norm_num)
    (by norm_num) (by norm_num) (by norm_num) (by norm_num)

/-- C8: the swirling attractor displacement of a piece at (100, 0) with
target (0, 0) (screen size 0 x 0, so the center is the origin),
attraction speed 4, swirl strength 1 and tangential multiplier 1.9 is
(-4, -7.6): its dot product with (-1, 0) is 4 > 0 (net approach) and its
magnitude sqrt(73.76) is below 100 (no single-tick overshoot). -/
theorem c8_theorem :
    0 < (astSuckDisplacement 0 0 100 0 1).1 * (-1) + (astSuckDisplacement 0 0 100 0 1).2 * 0 ∧
    Real.sqrt ((astSuckDisplacement 0 0 100 0 1).1 ^ 2 + (astSuckDisplacement 0 0 100 0 1).2 ^ 2)
      < 100 := by
  have h : Real.sqrt (10000:ℝ) = 100 := by
    rw [show (10000:ℝ) = 100 ^ 2 by norm_num, Real.sqrt_sq (by norm_num : (0:ℝ) ≤ 100)]
  have hval : astSuckDisplacement 0 0 100 0 1 = (-4, -38/5) := by
    unfold astSuckDisplacement
    norm_num
    rw [h]
    norm_num
  rw [hval]
  constructor
  · norm_num
  · rw [show ((-4 : ℝ), (-38/5 : ℝ)).1 ^ 2 + ((-4 : ℝ), (-38/5 : ℝ)).2 ^ 2 = 1844/25 by norm_num]
    rw [show (100 : ℝ) = Real.sqrt (100 ^ 2) by rw [Real.sqrt_sq (by norm_num : (0:ℝ) ≤ 100)]]
    apply Real.sqrt_lt_sqrt (by norm_num)
    norm_num

/-- C9: the sucked-in branch of AsteroidDebrisPiece.update and the
sucked-in branch of SuckingParticle.update move their object by exactly
the same displacement, for every screen size (hence attractor point),
position, swirl strength and dt factor. -/
theorem c9_theorem (screenW screenH : ℕ) (dt : ℝ) (p : AstPiece) (sp : SuckParticle)
    (hp : p.suckedIn = true) (hsp : sp.suckedIn = true)
    (hx : p.x = sp.x) (hy : p.y = sp.y) (hs : p.swirlStrength = sp.swirlStrength) :
    (astUpdate screenW screenH dt p).x - p.x
      = (suckingParticleUpdate screenW screenH sp).x - sp.x ∧
    (astUpdate screenW screenH dt p).y - p.y
      = (suckingParticleUpdate screenW screenH sp).y - sp.y := by
  obtain ⟨px, py, vx, vy, rs, ra, lt, al, si, st, sw⟩ := p
  obtain ⟨qx, qy, qvx, qvy, ql, qsi, qsw⟩ := sp
  dsimp only at hp hsp hx hy hs ⊢
  subst hp hsp hx hy hs
  simp only [astUpdate, suckingParticleUpdate]
  split_ifs <;> simp_all

theorem c9_theorem_witness :
    ((astUpdate 0 0 1 ⟨100, 0, 0, 0, 0, 0, 120, 255, true, 60, 1⟩).x -
       (⟨100, 0, 0, 0, 0, 0, 120, 255, true, 60, 1⟩ : AstPiece).x
      = (suckingParticleUpdate 0 0 ⟨100, 0, 0, 0, 60, true, 1⟩).x -
       (⟨100, 0, 0, 0, 60, true, 1⟩ : SuckParticle).x) ∧
    ((astUpdate 0 0 1 ⟨100, 0, 0, 0, 0, 0, 120, 255, true, 60, 1⟩).y -
       (⟨100, 0, 0, 0, 0, 0, 120, 255, true, 60, 1⟩ : AstPiece).y
      = (suckingParticleUpdate 0 0 ⟨100, 0, 0, 0, 60, true, 1⟩).y -
       (⟨100, 0, 0, 0, 60, true, 1⟩ : SuckParticle).y) :=
  c9_theorem 0 0 1 ⟨100, 0, 0, 0, 0, 0, 120, 255, true, 60, 1⟩
    ⟨100, 0, 0, 0, 60, true, 1⟩ rfl rfl rfl rfl rfl

/-- C10: a debris piece with lifetime 120, velocity (1, 0) and zero
angular velocity, updated 60 times with dt = 1 in the drag-free floating
regime, has advanced in x by exactly 60 and has lifetime exactly 60 -
for both the sucking class (whose suck_in_timer is 120 // 2 = 60, so it
is still floating throughout these ticks) and the exploding class. -/
theorem c10_theorem (x0 y0 : ℝ) :
    ((astUpdate 800 600 1)^[60] ⟨x0, y0, 1, 0, 0, 0, 120, 255, false, 60, 1⟩).x = x0 + 60 ∧
    ((astUpdate 800 600 1)^[60] ⟨x0, y0, 1, 0, 0, 0, 120, 255, false, 60, 1⟩).lifetime = 60 ∧
    ((explUpdate 1)^[60] ⟨x0, y0, 1, 0, 0, 0, 120, 255⟩).x = x0 + 60 ∧
    ((explUpdate 1)^[60] ⟨x0, y0, 1, 0, 0, 0, 120, 255⟩).lifetime = 60 := by
  rw [c10_ast_run x0 y0 60 le_rfl, c10_expl_run x0 y0 60 le_rfl]
  refine ⟨by norm_num, by norm_num, by norm_num, by norm_num⟩

end BHR
